import Mathlib

/-!
Verification of the Threat-Response Security Core of the
DEFENDER-DETECTIVE "Black Ice Protocol" agent.

Each definition below is a shallow embedding of a function of the
JavaScript source (`src/monitor/threatMonitor.js`, the `VaultManager`
module, `src/utils/securityLogger.js`).  Stateful methods are embedded
as explicit state-passing functions; fallible operations return
`Option`; external crypto primitives (Node's `crypto` module) are
parameters of the development.
-/

/-! ## ThreatMonitor: security-level derivation (threatMonitor.js) -/

inductive SecurityLevel
  | GREEN
  | YELLOW
  | RED
deriving DecidableEq, Repr

/-- A classified threat event, as built at every `reportThreat` call site:
`{type, severity, description, timestamp, details}` (the detail map plays
no role in the claims and is omitted). Severities are the strings
`"LOW"`, `"MEDIUM"`, `"HIGH"` exactly as in the source. -/
structure ThreatEvent where
  type : String
  severity : String
  description : String
  timestamp : Nat
deriving DecidableEq, Repr

/-- `ThreatMonitor.updateSecurityLevel` (threatMonitor.js:453-467):
counts HIGH and MEDIUM entries of `recentThreats` and derives the level.
The emitted value is the return value here. -/
def updateSecurityLevel (recentThreats : List ThreatEvent) : SecurityLevel :=
  let highThreats := (recentThreats.filter (fun t => t.severity == "HIGH")).length
  let mediumThreats := (recentThreats.filter (fun t => t.severity == "MEDIUM")).length
  if highThreats > 0 then SecurityLevel.RED
  else if mediumThreats > 2 ∨ recentThreats.length > 5 then SecurityLevel.YELLOW
  else SecurityLevel.GREEN

/-- `ThreatMonitor.reportThreat` (threatMonitor.js:437-451), restricted to
its effect on the history: `unshift` the new threat, then truncate to the
100 most recent entries. -/
def reportThreat (recentThreats : List ThreatEvent) (threat : ThreatEvent) :
    List ThreatEvent :=
  let updated := threat :: recentThreats
  if updated.length > 100 then updated.take 100 else updated

/-- Security level observed after each successive `reportThreat`,
starting from a given history. -/
def levelSequence (start : List ThreatEvent) (threats : List ThreatEvent) :
    List SecurityLevel :=
  (threats.foldl
    (fun (acc : List ThreatEvent × List SecurityLevel) t =>
      let h := reportThreat acc.1 t
      (h, acc.2 ++ [updateSecurityLevel h]))
    (start, [])).2

theorem filter_length_pos_of_mem {p : ThreatEvent → Bool} {l : List ThreatEvent}
    {t : ThreatEvent} (ht : t ∈ l) (hp : p t = true) :
    0 < (l.filter p).length := by
  have hmem : t ∈ l.filter p := List.mem_filter.mpr ⟨ht, hp⟩
  exact List.length_pos.mpr (List.ne_nil_of_mem hmem)

/-- C1: the derived SecurityLevel is a pure function of the current
history: any HIGH event forces RED; with no HIGH event, more than 2
MEDIUM events or more than 5 total events force YELLOW; otherwise the
level is GREEN. -/
theorem updateSecurityLevel_pure_characterization (history : List ThreatEvent) :
    ((∃ t ∈ history, t.severity = "HIGH") →
        updateSecurityLevel history = SecurityLevel.RED)
  ∧ ((∀ t ∈ history, t.severity ≠ "HIGH") →
      ((2 < (history.filter (fun t => t.severity == "MEDIUM")).length ∨
          5 < history.length) →
        updateSecurityLevel history = SecurityLevel.YELLOW)
    ∧ (¬(2 < (history.filter (fun t => t.severity == "MEDIUM")).length ∨
          5 < history.length) →
        updateSecurityLevel history = SecurityLevel.GREEN)) := by
  constructor
  · rintro ⟨t, ht, hsev⟩
    have hpos : 0 < (history.filter (fun t => t.severity == "HIGH")).length :=
      filter_length_pos_of_mem ht (by simp [hsev])
    simp only [updateSecurityLevel, gt_iff_lt]
    rw [if_pos hpos]
  · intro hnone
    have hzero : (history.filter (fun t => t.severity == "HIGH")).length = 0 := by
      rw [List.length_eq_zero, List.filter_eq_nil_iff]
      intro t ht
      simpa using hnone t ht
    constructor
    · intro hcond
      simp only [updateSecurityLevel, gt_iff_lt, hzero]
      rw [if_neg (by omega), if_pos hcond]
    · intro hcond
      simp only [updateSecurityLevel, gt_iff_lt, hzero]
      rw [if_neg (by omega), if_neg hcond]

/-- Witness for C1 at a concrete one-event history. -/
theorem updateSecurityLevel_pure_characterization_witness :
    updateSecurityLevel
      [{ type := "SUSPICIOUS_PROCESS", severity := "HIGH",
         description := "d", timestamp := 0 }] = SecurityLevel.RED :=
  (updateSecurityLevel_pure_characterization _).1
    ⟨_, List.mem_singleton.mpr rfl, rfl⟩

/-- A MEDIUM-severity event used in the C3 scenario. -/
def mediumEvent (i : Nat) : ThreatEvent :=
  { type := "SUSPICIOUS_WINDOW", severity := "MEDIUM",
    description := "suspicious window", timestamp := i }

/-- A HIGH-severity event used in the C3 scenario. -/
def highEvent : ThreatEvent :=
  { type := "SUSPICIOUS_PROCESS", severity := "HIGH",
    description := "suspicious process", timestamp := 3 }

/-- C3 counterexample: from an empty history, three MEDIUM reports
followed by one HIGH report yield GREEN, GREEN, YELLOW, RED — not the
claimed GREEN, YELLOW, YELLOW, RED (two MEDIUM events are not more than
two, so the second report still derives GREEN). -/
theorem levelSequence_three_medium_one_high_ne_claimed :
    levelSequence [] [mediumEvent 0, mediumEvent 1, mediumEvent 2, highEvent] =
      [SecurityLevel.GREEN, SecurityLevel.GREEN, SecurityLevel.YELLOW,
       SecurityLevel.RED]
  ∧ levelSequence [] [mediumEvent 0, mediumEvent 1, mediumEvent 2, highEvent] ≠
      [SecurityLevel.GREEN, SecurityLevel.YELLOW, SecurityLevel.YELLOW,
       SecurityLevel.RED] := by
  constructor
  · rfl
  · decide

/-- C3 amended: the level sequence produced by three MEDIUM reports
followed by one HIGH report is GREEN, GREEN, YELLOW, RED. -/
theorem levelSequence_three_medium_one_high :
    levelSequence [] [mediumEvent 0, mediumEvent 1, mediumEvent 2, highEvent] =
      [SecurityLevel.GREEN, SecurityLevel.GREEN, SecurityLevel.YELLOW,
       SecurityLevel.RED] := by
  rfl

/-! ## VaultManager: authenticated encryption (VaultManager.encrypt/decrypt)

`VaultManager.encrypt` draws `iv = randomBytes(16)`, builds an
AES-256-GCM cipher with the deprecated `crypto.createCipher`, sets the
associated data, and returns `iv ++ ciphertext ++ authTag`.
`createCipher` derives both the AES key *and the GCM nonce*
deterministically from the password, so the random `iv` prefix is never
an input to the cipher; `VaultManager.decrypt` slices the blob into
`iv / ciphertext / tag`, builds the matching `createDecipher` (same
derived key and nonce), checks the tag and returns the plaintext, never
using the sliced-off `iv`.

The library cipher is embedded as two parameters fixed by the vault key:
`ks` — the GCM/CTR keystream bytes for the derived key and nonce — and
`mac` — the 16-byte authentication tag as a function of the ciphertext
(associated data is the constant `'defender-detective'` and is folded
into `mac`).  Bytes are `Nat`s; the keystream byte is reduced mod 256
as Buffer bytes are. -/

def ivLength : Nat := 16

def tagLength : Nat := 16

/-- CTR/GCM byte stream: `ciphertext[i] = plaintext[i] XOR ks[i]`,
starting at stream position `i`. -/
def xorKeystream (ks : Nat → Nat) : Nat → List Nat → List Nat
  | _, [] => []
  | i, b :: bs => (b ^^^ ks i % 256) :: xorKeystream ks (i + 1) bs

/-- `VaultManager.encrypt` (VaultManager, lines 263-275): returns
`iv ++ encrypted ++ tag` where `encrypted` is produced by the cipher
keystream (which does not depend on `iv`) and `tag` is the GCM tag. -/
def vaultEncrypt (ks : Nat → Nat) (mac : List Nat → List Nat)
    (iv : List Nat) (data : List Nat) : List Nat :=
  let encrypted := xorKeystream ks 0 data
  let tag := mac encrypted
  iv ++ encrypted ++ tag

/-- `VaultManager.decrypt` (VaultManager, lines 277-290): slices the
blob as `slice(0,16) / slice(16,-16) / slice(-16)`, recomputes the tag
over the ciphertext, and throws (`none`) on tag mismatch.  The sliced
`iv` is dead: `createDecipher` re-derives the nonce from the password. -/
def vaultDecrypt (ks : Nat → Nat) (mac : List Nat → List Nat)
    (encryptedData : List Nat) : Option (List Nat) :=
  let iv := encryptedData.take ivLength
  let tag := encryptedData.drop (encryptedData.length - tagLength)
  let encrypted :=
    (encryptedData.drop ivLength).take (encryptedData.length - ivLength - tagLength)
  let _ := iv
  if mac encrypted = tag then some (xorKeystream ks 0 encrypted) else none

theorem xorKeystream_length (ks : Nat → Nat) :
    ∀ (i : Nat) (l : List Nat), (xorKeystream ks i l).length = l.length := by
  intro i l
  induction l generalizing i with
  | nil => rfl
  | cons b bs ih => simp [xorKeystream, ih]

theorem xorKeystream_involutive (ks : Nat → Nat) :
    ∀ (i : Nat) (l : List Nat), xorKeystream ks i (xorKeystream ks i l) = l := by
  intro i l
  induction l generalizing i with
  | nil => rfl
  | cons b bs ih =>
    simp only [xorKeystream, ih, List.cons.injEq, and_true]
    rw [Nat.xor_assoc, Nat.xor_self, Nat.xor_zero]

/-- Shape lemma: decrypting a well-formed `iv ++ ct ++ tag` blob ignores
`iv` entirely and reduces to the tag comparison. -/
theorem vaultDecrypt_append (ks : Nat → Nat) (mac : List Nat → List Nat)
    (iv ct tag : List Nat) (hiv : iv.length = 16) (htag : tag.length = 16) :
    vaultDecrypt ks mac (iv ++ ct ++ tag) =
      if mac ct = tag then some (xorKeystream ks 0 ct) else none := by
  have hlen : (iv ++ ct ++ tag).length = 16 + ct.length + 16 := by
    simp only [List.length_append, hiv, htag]
  have htagslice : (iv ++ ct ++ tag).drop ((iv ++ ct ++ tag).length - 16) = tag := by
    have hl : (iv ++ ct ++ tag).length - 16 = (iv ++ ct).length := by
      simp only [List.length_append, hiv, htag]
      omega
    rw [hl]
    exact List.drop_left (iv ++ ct) tag
  have hdrop : (iv ++ ct ++ tag).drop 16 = ct ++ tag := by
    rw [List.append_assoc]
    conv_lhs => rw [show (16 : Nat) = iv.length from hiv.symm]
    exact List.drop_left iv (ct ++ tag)
  have hctslice :
      ((iv ++ ct ++ tag).drop 16).take ((iv ++ ct ++ tag).length - 16 - 16) = ct := by
    rw [hdrop]
    have hl : (iv ++ ct ++ tag).length - 16 - 16 = ct.length := by omega
    rw [hl, List.take_left]
  simp only [vaultDecrypt, ivLength, tagLength]
  rw [htagslice, hctslice]

theorem list_set_ne_of_getD_ne :
    ∀ (l : List Nat) (i b : Nat), i < l.length → b ≠ l.getD i 0 → l.set i b ≠ l := by
  intro l
  induction l with
  | nil => intro i b h; simp at h
  | cons x xs ih =>
    intro i b h hb
    cases i with
    | zero =>
      simp only [List.getD_cons_zero] at hb
      simp [List.set]
      intro hx
      exact hb hx
    | succ j =>
      simp only [List.getD_cons_succ] at hb
      rw [List.set_cons_succ]
      intro hEq
      have htail : xs.set j b = xs := by
        injection hEq
      exact ih j b (by simpa using h) hb htail

/-- C2 counterexample: at a concrete keystream/tag instance, flipping the
first byte of the IV field of an encrypted blob does not make decryption
fail — the stored IV is never used, so decryption still succeeds and
returns the original plaintext. -/
theorem vaultDecrypt_iv_tamper_succeeds :
    (vaultEncrypt (fun _ => 0) (fun ct => List.replicate 16 ct.length)
        (List.replicate 16 0) [1, 2, 3]).set 0 9 ≠
      vaultEncrypt (fun _ => 0) (fun ct => List.replicate 16 ct.length)
        (List.replicate 16 0) [1, 2, 3]
  ∧ vaultDecrypt (fun _ => 0) (fun ct => List.replicate 16 ct.length)
      ((vaultEncrypt (fun _ => 0) (fun ct => List.replicate 16 ct.length)
          (List.replicate 16 0) [1, 2, 3]).set 0 9) = some [1, 2, 3] := by
  constructor
  · decide
  · rfl

/-- C2 amended: for every keystream and tag function (hence for the
library's AES-256-GCM), the encrypt→decrypt round-trip returns the
original plaintext bit-for-bit, including for the empty input; changing
any byte of the authentication tag, or any byte of the ciphertext whose
recomputed tag differs from the stored one, makes decryption fail; but
changing a byte of the IV field is *not* detected — decryption ignores
the stored IV and still returns the original plaintext. -/
theorem vaultEncrypt_vaultDecrypt_spec (ks : Nat → Nat) (mac : List Nat → List Nat)
    (iv data : List Nat) (hiv : iv.length = 16)
    (htag : (mac (xorKeystream ks 0 data)).length = 16) :
    vaultDecrypt ks mac (vaultEncrypt ks mac iv data) = some data
  ∧ (∀ i b, i < 16 →
      vaultDecrypt ks mac ((vaultEncrypt ks mac iv data).set i b) = some data)
  ∧ (∀ i b, i < 16 → b ≠ (mac (xorKeystream ks 0 data)).getD i 0 →
      vaultDecrypt ks mac
        ((vaultEncrypt ks mac iv data).set (16 + data.length + i) b) = none)
  ∧ (∀ i b, i < data.length →
      mac ((xorKeystream ks 0 data).set i b) ≠ mac (xorKeystream ks 0 data) →
      vaultDecrypt ks mac
        ((vaultEncrypt ks mac iv data).set (16 + i) b) = none) := by
  have hctlen : (xorKeystream ks 0 data).length = data.length :=
    xorKeystream_length ks 0 data
  refine ⟨?_, ?_, ?_, ?_⟩
  · rw [vaultEncrypt, vaultDecrypt_append ks mac _ _ _ hiv htag, if_pos rfl,
      xorKeystream_involutive]
  · intro i b hi
    have hset : (vaultEncrypt ks mac iv data).set i b =
        (iv.set i b) ++ xorKeystream ks 0 data ++ mac (xorKeystream ks 0 data) := by
      simp only [vaultEncrypt]
      rw [List.set_append_left i b (by simp only [List.length_append]; omega),
        List.set_append_left i b (by omega)]
    rw [hset, vaultDecrypt_append ks mac _ _ _ (by simp [hiv]) htag, if_pos rfl,
      xorKeystream_involutive]
  · intro i b hi hb
    have hset : (vaultEncrypt ks mac iv data).set (16 + data.length + i) b =
        iv ++ xorKeystream ks 0 data ++ (mac (xorKeystream ks 0 data)).set i b := by
      simp only [vaultEncrypt]
      rw [List.set_append_right (16 + data.length + i) b
        (by simp only [List.length_append, hiv, hctlen]; omega)]
      have hidx :
          16 + data.length + i - (iv ++ xorKeystream ks 0 data).length = i := by
        simp only [List.length_append, hiv, hctlen]
        omega
      rw [hidx]
    rw [hset, vaultDecrypt_append ks mac _ _ _ hiv (by simp [htag])]
    rw [if_neg]
    intro hEq
    exact list_set_ne_of_getD_ne _ i b (by omega) hb hEq.symm
  · intro i b hi hb
    have hset : (vaultEncrypt ks mac iv data).set (16 + i) b =
        iv ++ (xorKeystream ks 0 data).set i b ++ mac (xorKeystream ks 0 data) := by
      simp only [vaultEncrypt]
      rw [List.set_append_left (16 + i) b
        (by simp only [List.length_append, hiv, hctlen]; omega)]
      congr 1
      rw [List.set_append_right (16 + i) b (by omega)]
      have hidx : 16 + i - iv.length = i := by omega
      rw [hidx]
    rw [hset, vaultDecrypt_append ks mac _ _ _ hiv htag]
    exact if_neg hb

/-- Witness for C2 amended at a concrete instance: the round-trip on
`[5, 77]` under a concrete keystream and tag function. -/
theorem vaultEncrypt_vaultDecrypt_spec_witness :
    vaultDecrypt (fun i => i + 1) (fun ct => List.replicate 16 ct.length)
      (vaultEncrypt (fun i => i + 1) (fun ct => List.replicate 16 ct.length)
        (List.replicate 16 0) [5, 77]) = some [5, 77] :=
  (vaultEncrypt_vaultDecrypt_spec (fun i => i + 1)
    (fun ct => List.replicate 16 ct.length) (List.replicate 16 0) [5, 77]
    (by decide) (by decide)).1

/-! ## VaultManager: decryptFile and the missing `os` import

The `VaultManager` module requires, in order (lines 1-9): `fs` (twice —
promises and sync), `path`, `crypto`, `chokidar`, `child_process`, and
`util`.  It never requires `os`, yet `decryptFile` evaluates
`os.tmpdir()` on its success path, which throws a `ReferenceError` that
the surrounding `try`/`catch` converts into the `null` return. -/

def vaultModuleImports : List String :=
  ["fs", "fs", "path", "crypto", "chokidar", "child_process", "util"]

/-- Whether the identifier `os` is bound in the `VaultManager` module
scope.  It is not: `os` does not occur among the module's requires. -/
def osImported : Bool := vaultModuleImports.contains "os"

/-- The on-disk content store seen by `decryptFile`: a map from path to
file bytes.  `fs.readFile` on an absent path throws (is `none`). -/
def readFileOpt (fsys : List (String × List Nat)) (p : String) :
    Option (List Nat) :=
  (fsys.find? (fun e => e.1 == p)).map (fun e => e.2)

inductive DecryptFileOutcome
  | tempPath (p : String)
  | nullResult
deriving DecidableEq, Repr

/-- `VaultManager.decryptFile` (VaultManager, lines 242-261): reads
`filePath + '.encrypted'`, decrypts it, then builds a temp path with
`os.tmpdir()`.  All three steps sit in one `try` whose `catch` returns
`null`: a missing file, an authentication failure, and the
`ReferenceError` raised by the unbound `os` identifier all flow to the
same `null`. -/
def decryptFile (ks : Nat → Nat) (mac : List Nat → List Nat)
    (fsys : List (String × List Nat)) (filePath : String) :
    DecryptFileOutcome :=
  match readFileOpt fsys (filePath ++ ".encrypted") with
  | none => DecryptFileOutcome.nullResult
  | some encryptedData =>
    match vaultDecrypt ks mac encryptedData with
    | none => DecryptFileOutcome.nullResult
    | some _ =>
      if osImported then DecryptFileOutcome.tempPath ("dd_temp_" ++ filePath)
      else DecryptFileOutcome.nullResult

/-- C6: for every vault state and every input path, `decryptFile`
returns `null`: the success branch dereferences the never-imported `os`
module, so the resulting error is caught and mapped to `null`, and no
call ever yields a temp-file path to recovered plaintext. -/
theorem decryptFile_always_null (ks : Nat → Nat) (mac : List Nat → List Nat)
    (fsys : List (String × List Nat)) (filePath : String) :
    decryptFile ks mac fsys filePath = DecryptFileOutcome.nullResult := by
  unfold decryptFile
  split
  · rfl
  · split
    · rfl
    · rw [if_neg (by decide)]

/-- C5 counterexample: the outcome of `decryptFile` on a tampered blob
(authentication failure) and its outcome when the encrypted file does
not exist are the *same* value `null`, so the caller cannot tell
corruption apart from file-not-found.  Concretely: under a keystream of
zeros and a length-tag function, a 33-zero-byte blob fails its tag
check, and decryptFile returns `nullResult` — exactly the outcome on
the empty filesystem. -/
theorem decryptFile_tamper_eq_missing :
    vaultDecrypt (fun _ => 0) (fun ct => List.replicate 16 ct.length)
      (List.replicate 33 0) = none
  ∧ decryptFile (fun _ => 0) (fun ct => List.replicate 16 ct.length)
      [("a.encrypted", List.replicate 33 0)] "a" = DecryptFileOutcome.nullResult
  ∧ decryptFile (fun _ => 0) (fun ct => List.replicate 16 ct.length)
      [] "a" = DecryptFileOutcome.nullResult := by
  refine ⟨by decide, rfl, rfl⟩

/-- C5 amended: `decryptFile` returns `null` (rather than throwing) when
decryption authentication fails on a tampered blob, but the very same
`null` is returned when the encrypted file does not exist — and indeed
on every path, since the success branch references the never-imported
`os` module — so the caller cannot distinguish corruption/tamper from
file-not-found. -/
theorem decryptFile_null_on_failure_indistinguishable
    (ks : Nat → Nat) (mac : List Nat → List Nat)
    (fsys : List (String × List Nat)) (filePath : String) :
    (∀ blob, readFileOpt fsys (filePath ++ ".encrypted") = some blob →
      vaultDecrypt ks mac blob = none →
      decryptFile ks mac fsys filePath = DecryptFileOutcome.nullResult)
  ∧ (readFileOpt fsys (filePath ++ ".encrypted") = none →
      decryptFile ks mac fsys filePath = DecryptFileOutcome.nullResult)
  ∧ decryptFile ks mac fsys filePath =
      decryptFile ks mac [] filePath := by
  refine ⟨?_, ?_, ?_⟩
  · intro blob hread hdec
    simp only [decryptFile, hread, hdec]
  · intro hread
    simp only [decryptFile, hread]
  · rw [decryptFile_always_null, decryptFile_always_null]

/-- Witness for C5 amended: both failure modes observed at concrete
inputs produce the same `null` outcome. -/
theorem decryptFile_null_on_failure_indistinguishable_witness :
    decryptFile (fun _ => 0) (fun ct => List.replicate 16 ct.length)
      [("b.encrypted", List.replicate 33 0)] "b" = DecryptFileOutcome.nullResult :=
  (decryptFile_null_on_failure_indistinguishable (fun _ => 0)
      (fun ct => List.replicate 16 ct.length)
      [("b.encrypted", List.replicate 33 0)] "b").1
    (List.replicate 33 0) rfl (by decide)

/-! ## VaultManager: protected-folder set and watcher map

`protectedFolders` is a JS `Set` (insertion-ordered, duplicate-free) and
`fileWatchers` a `Map` from folder path to watcher; both are embedded as
duplicate-free lists of paths.  `path.resolve` depends on the process
working directory and is passed in as a function. -/

structure VaultFolderState where
  protectedFolders : List String
  fileWatchers : List String
deriving DecidableEq, Repr

/-- `VaultManager.watchFolder` (VaultManager, lines 136-159): returns
early if a watcher for the folder already exists, otherwise registers
one. -/
def watchFolder (s : VaultFolderState) (folderPath : String) :
    VaultFolderState :=
  if folderPath ∈ s.fileWatchers then s
  else { s with fileWatchers := s.fileWatchers ++ [folderPath] }

/-- `VaultManager.addProtectedFolder` (VaultManager, lines 630-646):
resolves the path; if it is not yet protected, adds it to the set,
starts a watch, and persists the set. -/
def addProtectedFolder (resolve : String → String) (s : VaultFolderState)
    (folderPath : String) : VaultFolderState :=
  let absolutePath := resolve folderPath
  if absolutePath ∈ s.protectedFolders then s
  else
    watchFolder
      { s with protectedFolders := s.protectedFolders ++ [absolutePath] }
      absolutePath

/-- `VaultManager.removeProtectedFolder` (VaultManager, lines 648-671):
resolves the path; if it is protected, deletes it from the set, closes
and discards its watcher, and persists; otherwise does nothing. -/
def removeProtectedFolder (resolve : String → String) (s : VaultFolderState)
    (folderPath : String) : VaultFolderState :=
  let absolutePath := resolve folderPath
  if absolutePath ∈ s.protectedFolders then
    { protectedFolders := s.protectedFolders.erase absolutePath,
      fileWatchers := s.fileWatchers.erase absolutePath }
  else s

/-- C8: adding a protected folder twice leaves exactly one set entry and
exactly one watcher for it (idempotence), and removing a folder that is
not protected changes nothing.  The hypotheses are the `Set`/`Map`
representation invariants (no duplicates) and the spec invariant that
every protected folder has a watcher. -/
theorem addProtectedFolder_idempotent_remove_noop
    (resolve : String → String) (s : VaultFolderState) (p : String)
    (hnodupF : s.protectedFolders.Nodup) (hnodupW : s.fileWatchers.Nodup)
    (hcorr : ∀ x ∈ s.protectedFolders, x ∈ s.fileWatchers) :
    (addProtectedFolder resolve (addProtectedFolder resolve s p) p =
        addProtectedFolder resolve s p)
  ∧ ((addProtectedFolder resolve s p).protectedFolders.count (resolve p) = 1)
  ∧ ((addProtectedFolder resolve s p).fileWatchers.count (resolve p) = 1)
  ∧ (∀ q, resolve q ∉ s.protectedFolders →
      removeProtectedFolder resolve s q = s) := by
  refine ⟨?_, ?_, ?_, ?_⟩
  · by_cases hmem : resolve p ∈ s.protectedFolders
    · simp [addProtectedFolder, hmem]
    · have hmem2 : resolve p ∈
          (addProtectedFolder resolve s p).protectedFolders := by
        simp [addProtectedFolder, hmem, watchFolder]
        split <;> simp
      conv_lhs => rw [addProtectedFolder]
      rw [if_pos hmem2]
  · by_cases hmem : resolve p ∈ s.protectedFolders
    · simp only [addProtectedFolder, if_pos hmem]
      exact List.count_eq_one_of_mem hnodupF hmem
    · simp only [addProtectedFolder, watchFolder]
      rw [if_neg hmem]
      split <;>
        simp [List.count_append, List.count_eq_zero_of_not_mem hmem]
  · by_cases hmem : resolve p ∈ s.protectedFolders
    · simp only [addProtectedFolder, if_pos hmem]
      exact List.count_eq_one_of_mem hnodupW (hcorr _ hmem)
    · simp only [addProtectedFolder, watchFolder]
      rw [if_neg hmem]
      by_cases hw : resolve p ∈ s.fileWatchers
      · rw [if_pos hw]
        exact List.count_eq_one_of_mem hnodupW hw
      · rw [if_neg hw]
        simp [List.count_append, List.count_eq_zero_of_not_mem hw]
  · intro q hq
    simp [removeProtectedFolder, hq]

/-- Witness for C8 at a concrete state: double add on the empty state,
and a removal on a state that does not contain the path. -/
theorem addProtectedFolder_idempotent_remove_noop_witness :
    (addProtectedFolder id (addProtectedFolder id ⟨[], []⟩ "/proj") "/proj" =
        addProtectedFolder id ⟨[], []⟩ "/proj")
  ∧ removeProtectedFolder id ⟨["/a"], ["/a"]⟩ "/b" = ⟨["/a"], ["/a"]⟩ :=
  ⟨(addProtectedFolder_idempotent_remove_noop id ⟨[], []⟩ "/proj"
      (by simp) (by simp) (by simp)).1,
   (addProtectedFolder_idempotent_remove_noop id ⟨["/a"], ["/a"]⟩ "/x"
      (by simp) (by simp) (by simp)).2.2.2 "/b" (by decide)⟩

/-! ## VaultManager: watched-folder event handling

`chokidar` reports `(event, filePath)` pairs; the operating-system
origin of the event (which process touched the file) is *not* part of
what the watcher delivers, so it appears here only as metadata of the
modelled event, never as an input of the code under verification. -/

structure WatchedEvent where
  event : String
  filePath : String
  originPid : Nat
deriving DecidableEq, Repr

inductive LoggedItem
  | fileAccessEntry (event : String) (filePath : String) (isAuthorized : Bool)
  | threatEntry (type : String) (severity : String)
  | actionEntry (action : String)
deriving DecidableEq, Repr

/-- `VaultManager.isAuthorizedAccess` (VaultManager, lines 183-187): the
body is `return process.pid === process.pid` — a comparison of the
agent's own pid with itself, true for every call. -/
def isAuthorizedAccess (agentPid : Nat) (_filePath : String) : Bool :=
  agentPid == agentPid

/-- `VaultManager.handleUnauthorizedAccess` (VaultManager, lines
189-203) together with `blockFileAccess` (lines 205-220): logs a
`FILE_ACCESS_ATTEMPT` threat of HIGH severity, then the block action
(which only logs `FILE_ACCESS_BLOCKED`). -/
def handleUnauthorizedAccess (_event _filePath : String) : List LoggedItem :=
  [LoggedItem.threatEntry "FILE_ACCESS_ATTEMPT" "HIGH",
   LoggedItem.actionEntry "FILE_ACCESS_BLOCKED"]

/-- `VaultManager.handleFileEvent` (VaultManager, lines 161-181): checks
authorization, dispatches to `handleUnauthorizedAccess` when the check
fails, and always logs the file-access event. -/
def handleFileEvent (agentPid : Nat) (event filePath : String) :
    List LoggedItem :=
  let isAuthorized := isAuthorizedAccess agentPid filePath
  (if isAuthorized = false then handleUnauthorizedAccess event filePath else [])
    ++ [LoggedItem.fileAccessEntry event filePath isAuthorized]

/-- A watcher callback delivery: the code receives only `(event,
filePath)`; the true origin pid of the filesystem event never reaches
it. -/
def processWatchEvent (agentPid : Nat) (e : WatchedEvent) : List LoggedItem :=
  handleFileEvent agentPid e.event e.filePath

/-- C9 counterexample: a filesystem event originating from a foreign
process (pid 9999, agent pid 1234) does *not* trigger a
`FILE_ACCESS_ATTEMPT` threat — the authorization check compares the
agent's pid with itself and deems every event authorized. -/
theorem foreign_event_not_flagged :
    (⟨"change", "/vault/secret.txt", 9999⟩ : WatchedEvent).originPid ≠ 1234
  ∧ LoggedItem.threatEntry "FILE_ACCESS_ATTEMPT" "HIGH" ∉
      processWatchEvent 1234 ⟨"change", "/vault/secret.txt", 9999⟩ := by
  constructor
  · decide
  · decide

/-- C9 amended: every filesystem event on a watched folder is checked
for authorization, but the check (`process.pid === process.pid`) treats
every event — whatever its origin — as authorized, so no event is ever
treated as unauthorized: the `FILE_ACCESS_ATTEMPT`-plus-block path is
unreachable from `handleFileEvent`, and every event is logged as an
authorized file access. -/
theorem handleFileEvent_always_authorized (agentPid : Nat)
    (event filePath : String) :
    isAuthorizedAccess agentPid filePath = true
  ∧ handleFileEvent agentPid event filePath =
      [LoggedItem.fileAccessEntry event filePath true]
  ∧ LoggedItem.threatEntry "FILE_ACCESS_ATTEMPT" "HIGH" ∉
      handleFileEvent agentPid event filePath := by
  have hauth : isAuthorizedAccess agentPid filePath = true := by
    simp [isAuthorizedAccess]
  refine ⟨hauth, ?_, ?_⟩
  · simp [handleFileEvent, hauth]
  · simp [handleFileEvent, hauth]

/-! ## SecurityLogger: rotation and retention (securityLogger.js)

A log file on disk is its embedded creation timestamp (sortable, parsed
back by `extractTimestampFromFileName`) and its byte size.  Encrypted
entries are represented by their encoded size; `writeLogEntry` appends
`encryptedData + '\x0a'` to the current file.  Rotation is *only*
performed by `checkLogRotation`, which the constructor schedules every
five minutes (and `shutdown` calls once); `writeLogEntry` itself never
checks the size. -/

structure LogFile where
  timestamp : Nat
  size : Nat
deriving DecidableEq, Repr

structure LoggerState where
  files : List LogFile
  currentTimestamp : Nat
  clock : Nat
  maxLogSize : Nat
  maxLogFiles : Nat
deriving DecidableEq, Repr

/-- Default `this.maxLogSize = 10 * 1024 * 1024` (10MB). -/
def maxLogSizeDefault : Nat := 10 * 1024 * 1024

/-- Default `this.maxLogFiles = 10`. -/
def maxLogFilesDefault : Nat := 10

/-- The `sort((a, b) => b.timestamp - a.timestamp)` of
`cleanupOldLogFiles`: newest first. -/
def insertByNewest (f : LogFile) : List LogFile → List LogFile
  | [] => [f]
  | g :: gs =>
    if g.timestamp ≤ f.timestamp then f :: g :: gs
    else g :: insertByNewest f gs

def sortByNewest : List LogFile → List LogFile
  | [] => []
  | f :: fs => insertByNewest f (sortByNewest fs)

/-- `SecurityLogger.writeLogEntry` (securityLogger.js:259-277): encrypts
the entry and appends it plus a newline to the current log file.  No
size check, no rotation. -/
def writeLogEntry (s : LoggerState) (entrySize : Nat) : LoggerState :=
  { s with
    files := s.files.map (fun f =>
      if f.timestamp == s.currentTimestamp then
        { f with size := f.size + entrySize + 1 }
      else f) }

/-- `SecurityLogger.createNewLogFile` (securityLogger.js:92-114): a new
file named by the current time, holding one initial encrypted entry,
becomes the current log file. -/
def createNewLogFile (s : LoggerState) (initialEntrySize : Nat) : LoggerState :=
  { s with
    files := s.files ++ [{ timestamp := s.clock, size := initialEntrySize }],
    currentTimestamp := s.clock,
    clock := s.clock + 1 }

/-- `SecurityLogger.cleanupOldLogFiles` (securityLogger.js:154-183):
sorts the on-disk log files newest-first by the timestamp parsed from
the filename and, when more than `maxLogFiles` exist, deletes all but
the `maxLogFiles` most recent. -/
def cleanupOldLogFiles (s : LoggerState) : LoggerState :=
  let logFiles := sortByNewest s.files
  if s.maxLogFiles < logFiles.length then
    { s with files := logFiles.take s.maxLogFiles }
  else s

/-- `SecurityLogger.rotateLogFile` (securityLogger.js:141-152). -/
def rotateLogFile (s : LoggerState) (initialEntrySize : Nat) : LoggerState :=
  cleanupOldLogFiles (createNewLogFile s initialEntrySize)

/-- `fs.stat(this.currentLogFile).size`. -/
def currentLogSize (s : LoggerState) : Nat :=
  ((s.files.find? (fun f => f.timestamp == s.currentTimestamp)).map
    LogFile.size).getD 0

/-- `SecurityLogger.checkLogRotation` (securityLogger.js:123-139):
rotates when the current file's size strictly exceeds `maxLogSize`.
Runs on a 5-minute interval and at shutdown — never at append time. -/
def checkLogRotation (s : LoggerState) (initialEntrySize : Nat) : LoggerState :=
  if s.maxLogSize < currentLogSize s then rotateLogFile s initialEntrySize
  else s

theorem insertByNewest_length (f : LogFile) (l : List LogFile) :
    (insertByNewest f l).length = l.length + 1 := by
  induction l with
  | nil => rfl
  | cons g gs ih =>
    simp only [insertByNewest]
    split
    · simp
    · simp [ih]

theorem sortByNewest_length (l : List LogFile) :
    (sortByNewest l).length = l.length := by
  induction l with
  | nil => rfl
  | cons f fs ih => simp [sortByNewest, insertByNewest_length, ih]

/-- The state of the C10 counterexample: a single, current log file
already one byte over the 10MB ceiling. -/
def overfullLoggerState : LoggerState :=
  { files := [{ timestamp := 0, size := maxLogSizeDefault + 1 }],
    currentTimestamp := 0, clock := 1,
    maxLogSize := maxLogSizeDefault, maxLogFiles := maxLogFilesDefault }

/-- C10 counterexample: with the current log file already past the size
ceiling, the next append still goes to that same file — `writeLogEntry`
performs no rotation, so the log does not rotate "before the next
append"; only the later periodic check does. -/
theorem writeLogEntry_appends_past_ceiling :
    overfullLoggerState.maxLogSize < currentLogSize overfullLoggerState
  ∧ writeLogEntry overfullLoggerState 100 =
      { overfullLoggerState with
        files := [{ timestamp := 0, size := maxLogSizeDefault + 102 }] }
  ∧ (writeLogEntry overfullLoggerState 100).currentTimestamp =
      overfullLoggerState.currentTimestamp
  ∧ (writeLogEntry overfullLoggerState 100).files.length = 1 := by
  refine ⟨by decide, by decide, rfl, rfl⟩

/-- C10 amended: appending never rotates — `writeLogEntry` keeps the
same current file and creates no file; rotation happens when the
periodic `checkLogRotation` observes the current file's size above the
ceiling, and then switches to a freshly created file; after the
rotation cleanup runs, at most `maxLogFiles` log files remain on
disk. -/
theorem logRotation_spec (s : LoggerState) (entrySize initialEntrySize : Nat) :
    ((writeLogEntry s entrySize).currentTimestamp = s.currentTimestamp
     ∧ (writeLogEntry s entrySize).files.length = s.files.length)
  ∧ (s.maxLogSize < currentLogSize s →
      checkLogRotation s initialEntrySize = rotateLogFile s initialEntrySize)
  ∧ (currentLogSize s ≤ s.maxLogSize →
      checkLogRotation s initialEntrySize = s)
  ∧ (rotateLogFile s initialEntrySize).currentTimestamp = s.clock
  ∧ (cleanupOldLogFiles s).files.length ≤ s.maxLogFiles
  ∧ (rotateLogFile s initialEntrySize).files.length ≤ s.maxLogFiles := by
  have hcleanup : ∀ t : LoggerState,
      (cleanupOldLogFiles t).files.length ≤ t.maxLogFiles := by
    intro t
    simp only [cleanupOldLogFiles]
    split
    · simp [List.length_take]
    · next h =>
      rw [sortByNewest_length] at h
      omega
  refine ⟨⟨rfl, by simp [writeLogEntry]⟩, ?_, ?_, ?_, hcleanup s, ?_⟩
  · intro h
    simp only [checkLogRotation]
    rw [if_pos h]
  · intro h
    simp only [checkLogRotation]
    rw [if_neg (by omega)]
  · simp only [rotateLogFile, cleanupOldLogFiles]
    split <;> rfl
  · exact hcleanup (createNewLogFile s initialEntrySize)

/-- Witness for C10 amended: the periodic check on the over-full state
does rotate. -/
theorem logRotation_spec_witness :
    checkLogRotation overfullLoggerState 40 =
      rotateLogFile overfullLoggerState 40 :=
  (logRotation_spec overfullLoggerState 0 40).2.1 (by decide)

/-! ## PanicHandler: lockdown and panic ladder (threatMonitor.js, second module)

The handler's observable behaviour is a pair of booleans
(`isLockedDown`, `panicMode`), the multiset of deactivation timers
currently scheduled (the source passes the `setTimeout` handle to
nothing and stores it nowhere, so a timer can only be consumed by
firing), and the ordered trace of executed side-effect steps. -/

inductive PAction
  | wipeTempFiles
  | wipeCache
  | wipeNonSecurityLogs
  | clearMemory
  | encryptAllSensitiveFiles
  | disableNetworkAccess
  | createVanishingLocksStep
  | activateDecoyFilesStep
  | logLockdownActivated
  | scheduleDeactivationTimer
  | removeVanishingLocks
  | enableNetworkAccess
  | logLockdownDeactivated
  | createFakeCrashLog
  | showFakeErrorDialog
  | logFakeCrash
  | wipeAllData
  | deleteApplicationFiles
  | removeRegistryEntries
  | logSelfObliteration
  | exitProcess
  | logPanicActivated
deriving DecidableEq, Repr

structure PanicState where
  isLockedDown : Bool
  panicMode : Bool
  pendingDeactivationTimers : Nat
  trace : List PAction
deriving DecidableEq, Repr

/-- `this.emergencyPassphrases` (threatMonitor.js:517-522). -/
def emergencyPassphrases : List String :=
  ["BLACK_ICE_PROTOCOL", "DEFENDER_DETECTIVE_EMERGENCY",
   "PANIC_MODE_ACTIVATE", "SELF_DESTRUCT_SEQUENCE"]

/-- `PanicHandler.wipeSensitiveData` (threatMonitor.js:804-825): temp
files, cache, non-security logs, in-memory caches, in order. -/
def wipeSensitiveData (s : PanicState) : PanicState :=
  { s with trace := s.trace ++
      [PAction.wipeTempFiles, PAction.wipeCache,
       PAction.wipeNonSecurityLogs, PAction.clearMemory] }

/-- `PanicHandler.activateLockdown` (threatMonitor.js:739-775): no-op if
already locked down; otherwise encrypts, disables network, creates
vanishing locks, activates decoys, logs `LOCKDOWN_ACTIVATED`, and
schedules the automatic deactivation with a bare `setTimeout` whose
handle is discarded. -/
def activateLockdown (s : PanicState) : PanicState :=
  if s.isLockedDown then s
  else
    { s with
      isLockedDown := true,
      pendingDeactivationTimers := s.pendingDeactivationTimers + 1,
      trace := s.trace ++
        [PAction.encryptAllSensitiveFiles, PAction.disableNetworkAccess,
         PAction.createVanishingLocksStep, PAction.activateDecoyFilesStep,
         PAction.logLockdownActivated, PAction.scheduleDeactivationTimer] }

/-- `PanicHandler.deactivateLockdown` (threatMonitor.js:777-801): no-op
if not locked down; otherwise removes locks, re-enables network, and
logs `LOCKDOWN_DEACTIVATED`.  No field ever holds the pending timer, so
nothing is cancelled here. -/
def deactivateLockdown (s : PanicState) : PanicState :=
  if s.isLockedDown then
    { s with
      isLockedDown := false,
      trace := s.trace ++
        [PAction.removeVanishingLocks, PAction.enableNetworkAccess,
         PAction.logLockdownDeactivated] }
  else s

/-- A scheduled deactivation timer fires: the timer is consumed and its
callback `() => this.deactivateLockdown()` runs. -/
def lockdownTimerFires (s : PanicState) : PanicState :=
  deactivateLockdown
    { s with pendingDeactivationTimers := s.pendingDeactivationTimers - 1 }

/-- `PanicHandler.fakeApplicationCrash` (threatMonitor.js:1030-1048). -/
def fakeApplicationCrash (s : PanicState) : PanicState :=
  { s with trace := s.trace ++
      [PAction.createFakeCrashLog, PAction.showFakeErrorDialog,
       PAction.logFakeCrash] }

/-- `PanicHandler.selfObliterate` (threatMonitor.js:1083-1107): wipes
the data directory, requests application-file and registry deletion,
logs, then calls `process.exit(0)`. -/
def selfObliterate (s : PanicState) : PanicState :=
  { s with trace := s.trace ++
      [PAction.wipeAllData, PAction.deleteApplicationFiles,
       PAction.removeRegistryEntries, PAction.logSelfObliteration,
       PAction.exitProcess] }

/-- `PanicHandler.executeEmergencyProcedures` (threatMonitor.js:713-736):
wipe, then lockdown (`performLockdown` = `activateLockdown`), then fake
crash; `selfObliterate` runs only when the trigger is the string
`'SELF_DESTRUCT_SEQUENCE'` — this comparison is its only call site in
the program. -/
def executeEmergencyProcedures (trigger : String) (s : PanicState) :
    PanicState :=
  let s1 := wipeSensitiveData s
  let s2 := activateLockdown s1
  let s3 := fakeApplicationCrash s2
  if trigger = "SELF_DESTRUCT_SEQUENCE" then selfObliterate s3 else s3

/-- `PanicHandler.activatePanicMode` (threatMonitor.js:696-711): no-op
when already in panic mode; otherwise sets the flag, logs
`PANIC_MODE_ACTIVATED`, and executes the emergency procedures with the
triggering passphrase. -/
def activatePanicMode (trigger : String) (s : PanicState) : PanicState :=
  if s.panicMode then s
  else
    executeEmergencyProcedures trigger
      { s with panicMode := true, trace := s.trace ++ [PAction.logPanicActivated] }

/-- The handler's state at construction (threatMonitor.js:511-538). -/
def initPanicState : PanicState :=
  { isLockedDown := false, panicMode := false,
    pendingDeactivationTimers := 0, trace := [] }

/-- C4: a generic emergency passphrase runs exactly the wipe → lockdown
→ fake-crash ladder and never terminates the process; the
process-terminating self-obliteration runs if and only if the trigger
is the destruct passphrase `'SELF_DESTRUCT_SEQUENCE'`, and no other
trigger reaches it. -/
theorem executeEmergencyProcedures_destruct_gate (trigger : String) :
    (trigger ∈ emergencyPassphrases → trigger ≠ "SELF_DESTRUCT_SEQUENCE" →
      (activatePanicMode trigger initPanicState).trace =
        [PAction.logPanicActivated,
         PAction.wipeTempFiles, PAction.wipeCache,
         PAction.wipeNonSecurityLogs, PAction.clearMemory,
         PAction.encryptAllSensitiveFiles, PAction.disableNetworkAccess,
         PAction.createVanishingLocksStep, PAction.activateDecoyFilesStep,
         PAction.logLockdownActivated, PAction.scheduleDeactivationTimer,
         PAction.createFakeCrashLog, PAction.showFakeErrorDialog,
         PAction.logFakeCrash])
  ∧ (PAction.exitProcess ∈ (activatePanicMode trigger initPanicState).trace ↔
      trigger = "SELF_DESTRUCT_SEQUENCE") := by
  by_cases hdestruct : trigger = "SELF_DESTRUCT_SEQUENCE"
  · refine ⟨fun _ hne => absurd hdestruct hne, ?_⟩
    subst hdestruct
    decide
  · have htrace : (activatePanicMode trigger initPanicState).trace =
        [PAction.logPanicActivated,
         PAction.wipeTempFiles, PAction.wipeCache,
         PAction.wipeNonSecurityLogs, PAction.clearMemory,
         PAction.encryptAllSensitiveFiles, PAction.disableNetworkAccess,
         PAction.createVanishingLocksStep, PAction.activateDecoyFilesStep,
         PAction.logLockdownActivated, PAction.scheduleDeactivationTimer,
         PAction.createFakeCrashLog, PAction.showFakeErrorDialog,
         PAction.logFakeCrash] := by
      simp [activatePanicMode, initPanicState, executeEmergencyProcedures,
        wipeSensitiveData, activateLockdown, fakeApplicationCrash, hdestruct]
    refine ⟨fun _ _ => htrace, ?_⟩
    rw [htrace]
    constructor
    · intro hmem
      exact absurd hmem (by decide)
    · intro h
      exact absurd h hdestruct

/-- Witness for C4 at the generic passphrase `'BLACK_ICE_PROTOCOL'`. -/
theorem executeEmergencyProcedures_destruct_gate_witness :
    (activatePanicMode "BLACK_ICE_PROTOCOL" initPanicState).trace =
      [PAction.logPanicActivated,
       PAction.wipeTempFiles, PAction.wipeCache,
       PAction.wipeNonSecurityLogs, PAction.clearMemory,
       PAction.encryptAllSensitiveFiles, PAction.disableNetworkAccess,
       PAction.createVanishingLocksStep, PAction.activateDecoyFilesStep,
       PAction.logLockdownActivated, PAction.scheduleDeactivationTimer,
       PAction.createFakeCrashLog, PAction.showFakeErrorDialog,
       PAction.logFakeCrash] :=
  (executeEmergencyProcedures_destruct_gate "BLACK_ICE_PROTOCOL").1
    (by decide) (by decide)

/-- C7 counterexample: activate lockdown, then deactivate it manually
before the 5-minute timer fires — the scheduled timer is still pending
(its handle was never stored, so nothing could cancel it), contradicting
the claim that manual deactivation cancels the pending timer. -/
theorem deactivateLockdown_does_not_cancel_timer :
    (deactivateLockdown (activateLockdown initPanicState)).isLockedDown = false
  ∧ (deactivateLockdown (activateLockdown initPanicState)).pendingDeactivationTimers
      = 1 := by
  constructor
  · rfl
  · rfl

/-- C7 amended: activating lockdown twice performs the side effects once
and schedules exactly one deactivation timer (idempotence via the
`isLockedDown` guard); manual `deactivateLockdown` does *not* cancel the
pending timer — no handle is stored — but when the stale timer later
fires, its `deactivateLockdown` callback hits the not-locked guard and
is a no-op, so no second `LOCKDOWN_DEACTIVATED` entry is written as long
as lockdown is not re-activated before the timer fires. -/
theorem activateLockdown_idempotent_stale_timer (s : PanicState)
    (h : s.isLockedDown = false) :
    activateLockdown (activateLockdown s) = activateLockdown s
  ∧ (activateLockdown s).pendingDeactivationTimers =
      s.pendingDeactivationTimers + 1
  ∧ (deactivateLockdown (activateLockdown s)).pendingDeactivationTimers =
      s.pendingDeactivationTimers + 1
  ∧ (lockdownTimerFires (deactivateLockdown (activateLockdown s))).trace =
      (deactivateLockdown (activateLockdown s)).trace
  ∧ ((lockdownTimerFires (deactivateLockdown (activateLockdown s))).trace.count
        PAction.logLockdownDeactivated =
      (deactivateLockdown (activateLockdown s)).trace.count
        PAction.logLockdownDeactivated)
  ∧ (lockdownTimerFires
        (deactivateLockdown (activateLockdown s))).pendingDeactivationTimers =
      s.pendingDeactivationTimers := by
  have hact : activateLockdown s =
      { s with
        isLockedDown := true,
        pendingDeactivationTimers := s.pendingDeactivationTimers + 1,
        trace := s.trace ++
          [PAction.encryptAllSensitiveFiles, PAction.disableNetworkAccess,
           PAction.createVanishingLocksStep, PAction.activateDecoyFilesStep,
           PAction.logLockdownActivated, PAction.scheduleDeactivationTimer] } := by
    simp only [activateLockdown, h]
    rfl
  have hdeact : (deactivateLockdown (activateLockdown s)).isLockedDown = false := by
    rw [hact]
    simp [deactivateLockdown]
  refine ⟨?_, ?_, ?_, ?_, ?_, ?_⟩
  · rw [hact]
    simp only [activateLockdown]
    rfl
  · rw [hact]
  · rw [hact]
    simp [deactivateLockdown]
  · simp only [lockdownTimerFires, deactivateLockdown]
    rw [if_neg (by rw [hdeact] at *; simp_all [deactivateLockdown])]
  · simp only [lockdownTimerFires, deactivateLockdown]
    rw [if_neg (by rw [hdeact] at *; simp_all [deactivateLockdown])]
  · simp only [lockdownTimerFires]
    rw [hact]
    simp [deactivateLockdown]

/-- Witness for C7 amended at the initial handler state. -/
theorem activateLockdown_idempotent_stale_timer_witness :
    activateLockdown (activateLockdown initPanicState) =
      activateLockdown initPanicState :=
  (activateLockdown_idempotent_stale_timer initPanicState rfl).1
